import Mathlib

/-!
Verification of the job-posting ingestion pipeline of the career-curve
repository against its specification.

The embedded code comes from two sources:
- the analyze-job edge function (URL validator, credit ledger, content
  fetcher with fallback, extraction orchestrator) in
  supabase/functions/parse-resume/index.ts;
- the Gemini model adapter (buildGeminiRequest / normalizeGeminiToLovable)
  shared by the edge functions.

Platform primitives (the WHATWG URL constructor, JSON.parse and
JSON.stringify, string trimming) are modelled by small executable Lean
functions; the modelling notes on each definition state the
simplifications (integer-only JSON numbers, basic escape sequences, the
common scheme://host/path URL shapes).
-/

/-- Json models a parsed JSON value as the edge functions see one:
null, booleans, numbers (restricted to integers in this model; the
claims exercise no fractional literals), strings, arrays and objects
with insertion-ordered fields. -/
inductive Json where
  | null : Json
  | bool : Bool → Json
  | num : Int → Json
  | str : String → Json
  | arr : List Json → Json
  | obj : List (String × Json) → Json
deriving Repr

/-- jGet models property access o?.k on a parsed JSON value: a lookup of
the first field named k when the value is an object, none otherwise. -/
def jGet : Json → String → Option Json
  | Json.obj fs, k => fs.lookup k
  | _, _ => none

/-- jIndex models index access a?.[i] on a parsed JSON value. -/
def jIndex : Json → Nat → Option Json
  | Json.arr xs, i => xs.get? i
  | _, _ => none

/-- jTruthyV models JavaScript truthiness of a JSON value: null, false,
0 and the empty string are falsy, everything else is truthy. -/
def jTruthyV : Json → Bool
  | Json.null => false
  | Json.bool b => b
  | Json.num n => n != 0
  | Json.str s => s != ""
  | Json.arr _ => true
  | Json.obj _ => true

/-- jsNullish models the JavaScript nullish-coalescing expression
a ?? b for two optional JSON field reads (absent or null on the left
falls through to the right). -/
def jsNullish (a b : Option Json) : Option Json :=
  match a with
  | some Json.null => b
  | none => b
  | some v => some v

/-- jsonEscapePairs pairs each character the model's serializer
escapes with the escape letter it takes: the quote, the backslash and
the common control characters.  Model note: other code points pass
through unescaped, as the claims exercise none of them. -/
def jsonEscapePairs : List (Char × Char) :=
  [('"', '"'), ('\\', '\\'), ('\n', 'n'), ('\t', 't'), ('\r', 'r')]

/-- jsonEscapeChar maps one character to its JSON string encoding via
the escape table. -/
def jsonEscapeChar (c : Char) : List Char :=
  match jsonEscapePairs.find? (fun p => p.1 = c) with
  | some p => ['\\', p.2]
  | none => [c]

/-- jsonQuote encodes a string as a JSON string literal. -/
def jsonQuote (s : String) : String :=
  ⟨'"' :: s.data.foldr (fun c acc => jsonEscapeChar c ++ acc) ['"']⟩

mutual
/-- jsonStringify models JSON.stringify on a parsed JSON value
(canonical form: no added whitespace, insertion-ordered object keys). -/
def jsonStringify : Json → String
  | Json.null => "null"
  | Json.bool true => "true"
  | Json.bool false => "false"
  | Json.num n => toString n
  | Json.str s => jsonQuote s
  | Json.arr xs => "[" ++ jsonStringifyList xs ++ "]"
  | Json.obj fs => "\x7b" ++ jsonStringifyFields fs ++ "\x7d"
termination_by structural j => j

/-- jsonStringifyList serializes array elements joined by commas. -/
def jsonStringifyList : List Json → String
  | [] => ""
  | [x] => jsonStringify x
  | x :: xs => jsonStringify x ++ "," ++ jsonStringifyList xs
termination_by structural xs => xs

/-- jsonStringifyFields serializes object fields joined by commas. -/
def jsonStringifyFields : List (String × Json) → String
  | [] => ""
  | [(k, v)] => jsonQuote k ++ ":" ++ jsonStringify v
  | (k, v) :: fs => jsonQuote k ++ ":" ++ jsonStringify v ++ "," ++ jsonStringifyFields fs
termination_by structural fs => fs
end

/-- jsonSkipWs drops the JSON whitespace characters (space, tab,
newline, carriage return). -/
def jsonSkipWs (cs : List Char) : List Char :=
  cs.dropWhile (fun c => c = ' ' || c = '\t' || c = '\n' || c = '\r')

/-- jsonEscCharInv maps a JSON escape letter back to the character it
denotes, via the slash and the two backspace/formfeed escapes plus the
inverse of the escape table; unsupported escapes (including unicode
escapes, not needed by the claims) are rejected. -/
def jsonEscCharInv (e : Char) : Option Char :=
  if e = '/' then some '/'
  else if e = 'b' then some '\x08'
  else if e = 'f' then some '\x0c'
  else (jsonEscapePairs.find? (fun p => p.2 = e)).map (fun p => p.1)

/-- jsonParseStringChars consumes the body of a JSON string literal up
to the closing quote, decoding escapes, and returns the decoded
characters with the unconsumed input. -/
def jsonParseStringChars : List Char → Option (List Char × List Char)
  | '"' :: rest => some ([], rest)
  | '\\' :: e :: rest =>
    match jsonEscCharInv e with
    | some c => (jsonParseStringChars rest).map (fun p => (c :: p.1, p.2))
    | none => none
  | c :: rest =>
    if c = '\n' then none
    else (jsonParseStringChars rest).map (fun p => (c :: p.1, p.2))
  | [] => none

/-- jsonParseDigits reads a nonempty run of decimal digits as a natural
number, returning the value and the unconsumed input. -/
def jsonParseDigits (cs : List Char) : Option (Nat × List Char) :=
  let ds := cs.takeWhile Char.isDigit
  if ds.isEmpty then none
  else some (ds.foldl (fun a c => a * 10 + (c.toNat - 48)) 0, cs.drop ds.length)

/-- jsonParseNumber reads an optionally signed integer literal.
Model note: fractional and exponent parts of JSON numbers are not
modelled; the claims exercise integer literals only. -/
def jsonParseNumber (cs : List Char) : Option (Json × List Char) :=
  match cs with
  | '-' :: rest => (jsonParseDigits rest).map (fun p => (Json.num (-(p.1 : Int)), p.2))
  | _ => (jsonParseDigits cs).map (fun p => (Json.num (p.1 : Int), p.2))

mutual
/-- jsonParseValue is a fuelled recursive-descent reader for one JSON
value, modelling JSON.parse; it returns the value and the unconsumed
input. -/
def jsonParseValue : Nat → List Char → Option (Json × List Char)
  | 0, _ => none
  | fuel + 1, cs =>
    match jsonSkipWs cs with
    | 'n' :: 'u' :: 'l' :: 'l' :: rest => some (Json.null, rest)
    | 't' :: 'r' :: 'u' :: 'e' :: rest => some (Json.bool true, rest)
    | 'f' :: 'a' :: 'l' :: 's' :: 'e' :: rest => some (Json.bool false, rest)
    | '"' :: rest => (jsonParseStringChars rest).map (fun p => (Json.str ⟨p.1⟩, p.2))
    | '[' :: rest => (jsonParseArrayRest fuel rest).map (fun p => (Json.arr p.1, p.2))
    | '\x7b' :: rest => (jsonParseObjectRest fuel rest).map (fun p => (Json.obj p.1, p.2))
    | c :: rest =>
      if c = '-' || c.isDigit then jsonParseNumber (c :: rest) else none
    | [] => none
termination_by structural fuel _cs => fuel

/-- jsonParseArrayRest reads the elements after an opening bracket. -/
def jsonParseArrayRest : Nat → List Char → Option (List Json × List Char)
  | 0, _ => none
  | fuel + 1, cs =>
    match jsonSkipWs cs with
    | ']' :: rest => some ([], rest)
    | cs' =>
      match jsonParseValue fuel cs' with
      | none => none
      | some (v, rest) =>
        match jsonSkipWs rest with
        | ',' :: rest' =>
          (jsonParseArrayTail fuel rest').map (fun p => (v :: p.1, p.2))
        | ']' :: rest' => some ([v], rest')
        | _ => none
termination_by structural fuel _cs => fuel

/-- jsonParseArrayTail reads the elements after a comma in an array. -/
def jsonParseArrayTail : Nat → List Char → Option (List Json × List Char)
  | 0, _ => none
  | fuel + 1, cs =>
    match jsonParseValue fuel cs with
    | none => none
    | some (v, rest) =>
      match jsonSkipWs rest with
      | ',' :: rest' => (jsonParseArrayTail fuel rest').map (fun p => (v :: p.1, p.2))
      | ']' :: rest' => some ([v], rest')
      | _ => none
termination_by structural fuel _cs => fuel

/-- jsonParseObjectRest reads the fields after an opening brace. -/
def jsonParseObjectRest : Nat → List Char → Option (List (String × Json) × List Char)
  | 0, _ => none
  | fuel + 1, cs =>
    match jsonSkipWs cs with
    | '\x7d' :: rest => some ([], rest)
    | cs' => jsonParseObjectFields fuel cs'
termination_by structural fuel _cs => fuel

/-- jsonParseObjectFields reads one key-value pair and the following
fields of a JSON object. -/
def jsonParseObjectFields : Nat → List Char → Option (List (String × Json) × List Char)
  | 0, _ => none
  | fuel + 1, cs =>
    match jsonSkipWs cs with
    | '"' :: rest =>
      match jsonParseStringChars rest with
      | none => none
      | some (key, rest') =>
        match jsonSkipWs rest' with
        | ':' :: rest'' =>
          match jsonParseValue fuel rest'' with
          | none => none
          | some (v, rest''') =>
            match jsonSkipWs rest''' with
            | ',' :: r => (jsonParseObjectFields fuel r).map (fun p => ((⟨key⟩, v) :: p.1, p.2))
            | '\x7d' :: r => some ([(⟨key⟩, v)], r)
            | _ => none
        | _ => none
    | _ => none
termination_by structural fuel _cs => fuel
end

/-- jsonParse models JSON.parse: it succeeds exactly when the whole
input (up to surrounding whitespace) is one JSON value under the model
above, and fails (the JavaScript code throws) otherwise. -/
def jsonParse (s : String) : Option Json :=
  match jsonParseValue (s.length + 2) s.data with
  | some (j, rest) => if jsonSkipWs rest = [] then some j else none
  | none => none

/-! String helpers modelling the JavaScript string primitives used by
the edge function, implemented over the character list of a string. -/

/-- jsWhitespace holds on the whitespace characters stripped by the
JavaScript String.prototype.trim (ASCII whitespace plus the common
Unicode space characters exercised in practice). -/
def jsWhitespace (c : Char) : Bool :=
  c = ' ' || c = '\t' || c = '\n' || c = '\r' || c = '\x0b' || c = '\x0c' ||
  c = ' ' || c = '﻿'

/-- jsTrim models String.prototype.trim. -/
def jsTrim (s : String) : String :=
  ⟨((s.data.dropWhile jsWhitespace).reverse.dropWhile jsWhitespace).reverse⟩

/-- strStartsWith models String.prototype.startsWith. -/
def strStartsWith (s p : String) : Bool :=
  p.data.isPrefixOf s.data

/-- strEndsWith models String.prototype.endsWith. -/
def strEndsWith (s p : String) : Bool :=
  p.data.isSuffixOf s.data

/-- listHasInfix decides whether the needle occurs as a contiguous
sublist of the haystack. -/
def listHasInfix (needle : List Char) : List Char → Bool
  | [] => needle.isEmpty
  | c :: rest => needle.isPrefixOf (c :: rest) || listHasInfix needle rest

/-- containsSubstr models String.prototype.includes. -/
def containsSubstr (s sub : String) : Bool :=
  listHasInfix sub.data s.data

/-- strToLower models String.prototype.toLowerCase for the ASCII
hostnames the validator handles. -/
def strToLower (s : String) : String :=
  ⟨s.data.map Char.toLower⟩

/-! Model of the WHATWG URL constructor, restricted to what
validateUrl observes: the protocol and the hostname.  The model parses
the scheme://host[/path] shapes of http(s) URLs: scheme, optional
slashes, authority up to the first slash, query or fragment, userinfo
stripped at the last at-sign, port stripped at the first colon,
bracketed IPv6 hosts kept with their brackets (as the WHATWG hostname
getter does).  Hostname canonicalisation beyond lowercasing (punycode,
percent-decoding) is not modelled; the claims exercise plain ASCII
hostnames. -/

/-- UrlParts is the part of a parsed URL the validator reads. -/
structure UrlParts where
  protocol : String
  hostname : String
deriving Repr, DecidableEq

/-- urlSchemeChar holds on the characters allowed in a URL scheme. -/
def urlSchemeChar (c : Char) : Bool :=
  c.isAlpha || c.isDigit || c = '+' || c = '-' || c = '.'

/-- urlSplitScheme splits off a leading scheme followed by a colon,
requiring the scheme to start with a letter; parsing fails (the URL
constructor throws) when no such prefix exists. -/
def urlSplitScheme (cs : List Char) : Option (List Char × List Char) :=
  match cs.takeWhile urlSchemeChar, cs.dropWhile urlSchemeChar with
  | c :: sch, ':' :: rest => if c.isAlpha then some (c :: sch, rest) else none
  | _, _ => none

/-- urlSpecialSchemes lists the WHATWG special schemes with a required
nonempty host among those the claims can reach. -/
def urlSpecialSchemes : List String := ["http", "https", "ws", "wss", "ftp"]

/-- urlAfterLastAt strips a userinfo prefix: everything up to and
including the last at-sign of the authority. -/
def urlAfterLastAt (cs : List Char) : List Char :=
  (cs.reverse.takeWhile (fun c => c ≠ '@')).reverse

/-- urlHostOf extracts the hostname from the authority: a bracketed
IPv6 host is kept with its brackets, otherwise the port after the
first colon is dropped. -/
def urlHostOf (hostPort : List Char) : List Char :=
  match hostPort with
  | '[' :: r => '[' :: r.takeWhile (fun c => c ≠ ']') ++ [']']
  | _ => hostPort.takeWhile (fun c => c ≠ ':')

/-- urlParse models the URL constructor: some parts on success, none
when the constructor would throw. For a special scheme the slashes
after the colon are skipped and a nonempty authority is required; a
non-special scheme yields an opaque URL with an empty hostname. -/
def urlParse (s : String) : Option UrlParts :=
  match urlSplitScheme s.data with
  | none => none
  | some (sch, rest) =>
    let scheme := strToLower ⟨sch⟩
    if scheme ∈ urlSpecialSchemes then
      let afterSlashes := rest.dropWhile (fun c => c = '/')
      let authority := afterSlashes.takeWhile (fun c => c ≠ '/' && c ≠ '?' && c ≠ '#')
      let host := urlHostOf (urlAfterLastAt authority)
      if host.isEmpty then none
      else some { protocol := scheme ++ ":", hostname := strToLower ⟨host⟩ }
    else
      some { protocol := scheme ++ ":", hostname := "" }

/-! Embedding of the URL validator of the analyze-job edge function
(validateUrl and ALLOWED_DOMAINS in
supabase/functions/parse-resume/index.ts). -/

/-- ALLOWED_DOMAINS is the allowlist of job board domains, verbatim
from the source. -/
def ALLOWED_DOMAINS : List String := [
  "linkedin.com",
  "indeed.com",
  "glassdoor.com",
  "jobkorea.co.kr",
  "saramin.co.kr",
  "wanted.co.kr",
  "rocketpunch.com",
  "jumpit.co.kr",
  "programmers.co.kr",
  "catch.co.kr",
  "incruit.com",
  "worknet.go.kr",
  "albamon.com",
  "alba.co.kr",
  "job.go.kr",
  "career.co.kr",
  "jobs.lever.co",
  "boards.greenhouse.io",
  "job-boards.greenhouse.io",
  "jobs.ashbyhq.com",
  "apply.workable.com",
  "jobs.smartrecruiters.com",
  "recruiting.paylocity.com",
  "monster.com",
  "ziprecruiter.com",
  "careerbuilder.com",
  "dice.com",
  "simplyhired.com",
  "flexjobs.com",
  "angel.co",
  "wellfound.com",
  "remoteok.com",
  "weworkremotely.com",
  "stackoverflow.jobs",
  "hired.com",
  "triplebyte.com"]

/-- domainAllowed is the allowlist membership test of the source:
hostname === allowed or hostname.endsWith('.' + allowed). -/
def domainAllowed (hostname : String) : Bool :=
  ALLOWED_DOMAINS.any (fun allowed =>
    hostname = allowed || strEndsWith hostname ("." ++ allowed))

/-- matches172 models the regular expression matching the RFC1918
range 172.16.0.0/12: caret 172 dot (1[6-9]|2[0-9]|3[0-1]) dot. -/
def matches172 (h : String) : Bool :=
  match h.data with
  | '1' :: '7' :: '2' :: '.' :: a :: b :: '.' :: _ =>
    (a = '1' && ('6' ≤ b && b ≤ '9')) ||
    (a = '2' && b.isDigit) ||
    (a = '3' && (b = '0' || b = '1'))
  | _ => false

/-- hexLowerDigit holds on lowercase hexadecimal digits (the hostname
is lowercased before the case-insensitive regex runs, so lowercase
suffices). -/
def hexLowerDigit (c : Char) : Bool :=
  c.isDigit || ('a' ≤ c && c ≤ 'f')

/-- matchesFdUla models the regular expression caret fd[0-9a-f][0-9a-f]
colon for IPv6 unique-local addresses. -/
def matchesFdUla (h : String) : Bool :=
  match h.data with
  | 'f' :: 'd' :: a :: b :: ':' :: _ => hexLowerDigit a && hexLowerDigit b
  | _ => false

/-- isPrivateHost combines the private-range hostname patterns blocked
by validateUrl (the four IPv4 octet patterns and the three IPv6
prefixes), in source order. -/
def isPrivateHost (h : String) : Bool :=
  strStartsWith h "10." ||
  matches172 h ||
  strStartsWith h "192.168." ||
  strStartsWith h "169.254." ||
  strStartsWith h "fe80:" ||
  strStartsWith h "fc00:" ||
  matchesFdUla h

/-- UrlValidation is the result shape of validateUrl:
valid, optional error, optional normalized url. -/
structure UrlValidation where
  valid : Bool
  error : Option String
  url : Option String
deriving Repr, DecidableEq

/-- errUrlScheme is the unsupported-scheme error string. -/
def errUrlScheme : String := "지원되지 않는 URL 형식입니다. http 또는 https URL을 입력해주세요."

/-- errUrlInvalid is the blocked-hostname error string. -/
def errUrlInvalid : String := "유효하지 않은 URL입니다. 올바른 채용 공고 URL을 입력해주세요."

/-- errUrlNotAllowed is the not-allowlisted error string. -/
def errUrlNotAllowed : String := "지원되지 않는 사이트입니다. LinkedIn, 잡코리아, 사람인, 원티드 등 주요 채용 사이트의 URL을 입력해주세요."

/-- errUrlTooLong is the over-length error string. -/
def errUrlTooLong : String := "URL이 너무 깁니다. URL을 줄여 다시 시도해주세요."

/-- errUrlBadFormat is the catch-branch error string returned when the
URL constructor throws. -/
def errUrlBadFormat : String := "올바른 URL 형식이 아닙니다. 전체 URL을 확인해주세요."

/-- formatUrl is the scheme normalization at the top of validateUrl:
the trimmed input is used as-is when it starts with the four characters
http, otherwise https:// is prefixed. -/
def formatUrl (urlString : String) : String :=
  let t := jsTrim urlString
  if strStartsWith t "http" then t else "https://" ++ t

/-- validateUrl embeds the SSRF-prevention URL validator of the
analyze-job function: scheme normalization, URL parse, protocol check,
localhost and private-range blocks, allowlist check and length check,
with the source's error strings. -/
def validateUrl (urlString : String) : UrlValidation :=
  let formattedUrl := formatUrl urlString
  match urlParse formattedUrl with
  | none => { valid := false, error := some errUrlBadFormat, url := none }
  | some parsed =>
    if ¬ (parsed.protocol = "https:" ∨ parsed.protocol = "http:") then
      { valid := false, error := some errUrlScheme, url := none }
    else
      let hostname := strToLower parsed.hostname
      if hostname ∈ ["localhost", "127.0.0.1", "0.0.0.0", "::1"] then
        { valid := false, error := some errUrlInvalid, url := none }
      else if isPrivateHost hostname then
        { valid := false, error := some errUrlInvalid, url := none }
      else if ¬ domainAllowed hostname then
        { valid := false, error := some errUrlNotAllowed, url := none }
      else if 2000 < formattedUrl.length then
        { valid := false, error := some errUrlTooLong, url := none }
      else
        { valid := true, error := none, url := some formattedUrl }

/-! Embedding of the Gemini model adapter (the shared gemini module):
the vendor-neutral chat payload types, buildGeminiRequest for the
outbound direction and normalizeGeminiToLovable for the inbound
direction. -/

/-- OpenAIContentPart is one entry of a structured message content:
a text part or an image-url part. -/
inductive OpenAIContentPart where
  | text (t : String)
  | image_url (url : String)
deriving Repr, DecidableEq

/-- OpenAIRole is the role of a chat message. -/
inductive OpenAIRole where
  | system
  | user
  | assistant
deriving Repr, DecidableEq

/-- MessageContent is a chat message body: a plain string or a list of
content parts. -/
inductive MessageContent where
  | str (s : String)
  | parts (ps : List OpenAIContentPart)
deriving Repr, DecidableEq

/-- OpenAIMessage is one chat message of the vendor-neutral payload. -/
structure OpenAIMessage where
  role : OpenAIRole
  content : MessageContent
deriving Repr, DecidableEq

/-- OpenAIFunctionDef is a function tool definition: name, optional
description and optional JSON-schema parameters. -/
structure OpenAIFunctionDef where
  name : String
  description : Option String
  parameters : Option Json
deriving Repr

/-- OpenAITool is a tool entry; the source only handles entries whose
type field is the string function. -/
structure OpenAITool where
  type : String
  function : OpenAIFunctionDef
deriving Repr

/-- ToolChoiceFunction is the function reference of a forced tool
choice. -/
structure ToolChoiceFunction where
  name : String
deriving Repr, DecidableEq

/-- OpenAIToolChoice is a forced tool choice value. -/
structure OpenAIToolChoice where
  type : String
  function : Option ToolChoiceFunction
deriving Repr, DecidableEq

/-- LovableChatPayload is the vendor-neutral chat-completion request
shape accepted by callGeminiFromLovable. -/
structure LovableChatPayload where
  model : Option String
  messages : List OpenAIMessage
  tools : Option (List OpenAITool)
  tool_choice : Option OpenAIToolChoice
deriving Repr

/-- GeminiPart is one provider-native content part. -/
inductive GeminiPart where
  | text (t : String)
  | inlineData (mimeType : String) (data : String)
deriving Repr, DecidableEq

/-- GeminiContent is one provider-native content entry. -/
structure GeminiContent where
  role : String
  parts : List GeminiPart
deriving Repr, DecidableEq

/-- GeminiSystemInstruction is the hoisted system text of a
provider-native request; its parts are text parts. -/
structure GeminiSystemInstruction where
  role : String
  parts : List String
deriving Repr, DecidableEq

/-- GeminiFunctionDeclaration is a provider-native function
declaration with a sanitized schema. -/
structure GeminiFunctionDeclaration where
  name : String
  description : Option String
  parameters : Option Json
deriving Repr

/-- GeminiFunctionCallingConfig is the provider-native function
calling configuration. -/
structure GeminiFunctionCallingConfig where
  mode : String
  allowedFunctionNames : Option (List String)
deriving Repr, DecidableEq

/-- GeminiToolConfig wraps the function calling configuration. -/
structure GeminiToolConfig where
  functionCallingConfig : GeminiFunctionCallingConfig
deriving Repr, DecidableEq

/-- GeminiRequest is the provider-native request shape produced by
buildGeminiRequest. -/
structure GeminiRequest where
  contents : List GeminiContent
  systemInstruction : Option GeminiSystemInstruction
  tools : Option (List (List GeminiFunctionDeclaration))
  toolConfig : Option GeminiToolConfig
deriving Repr

/-- LovableFunction is the function part of a normalized tool call. -/
structure LovableFunction where
  arguments : String
deriving Repr, DecidableEq

/-- LovableToolCall is one normalized tool call. -/
structure LovableToolCall where
  function : LovableFunction
deriving Repr, DecidableEq

/-- LovableMessage is the message of a normalized response choice. -/
structure LovableMessage where
  content : String
  tool_calls : Option (List LovableToolCall)
deriving Repr, DecidableEq

/-- LovableChoice is one normalized response choice. -/
structure LovableChoice where
  message : LovableMessage
deriving Repr, DecidableEq

/-- LovableLikeResponse is the vendor-neutral response shape produced
by normalizeGeminiToLovable. -/
structure LovableLikeResponse where
  choices : List LovableChoice
deriving Repr, DecidableEq

/-- normalizeModel embeds the model-name normalization: a nonempty
trimmed GEMINI_MODEL environment value wins, a missing or empty payload
model falls back to the default, and a slash-qualified name keeps its
last segment.  The environment read is passed in as the envModel
argument. -/
def normalizeModel (envModel : Option String) (model : Option String) : String :=
  match envModel with
  | some e =>
    if e ≠ "" ∧ jsTrim e ≠ "" then jsTrim e
    else
      match model with
      | none => "gemini-3-flash-preview"
      | some m =>
        if m = "" then "gemini-3-flash-preview"
        else if containsSubstr m "/" then ((m.splitOn "/").getLast?).getD m
        else m
  | none =>
    match model with
    | none => "gemini-3-flash-preview"
    | some m =>
      if m = "" then "gemini-3-flash-preview"
      else if containsSubstr m "/" then ((m.splitOn "/").getLast?).getD m
      else m

/-- extractSystemText embeds the system-message extraction: the first
system message's content, with structured contents reduced to their
text parts joined by newlines. -/
def extractSystemText (messages : List OpenAIMessage) : Option String :=
  match messages.find? (fun m => m.role = OpenAIRole.system) with
  | none => none
  | some m =>
    match m.content with
    | MessageContent.str s => some s
    | MessageContent.parts ps =>
      some (String.intercalate "\n"
        (ps.filterMap (fun p =>
          match p with
          | OpenAIContentPart.text t => some t
          | _ => none)))

/-- dataUrlMatch embeds the regular expression
caret data:([^;]+);base64,(.+)dollar used on image URLs: it returns the
mime type and the base64 payload on a match.  The dot of the second
group does not match newlines, hence the newline guard. -/
def dataUrlMatch (url : String) : Option (String × String) :=
  let cs := url.data
  if strStartsWith url "data:" then
    let rest := cs.drop 5
    let mime := rest.takeWhile (fun c => c ≠ ';')
    let after := rest.drop mime.length
    if ¬ mime.isEmpty ∧ strStartsWith ⟨after⟩ ";base64," then
      let payload := after.drop 8
      if ¬ payload.isEmpty ∧ ¬ payload.contains '\n' then some (⟨mime⟩, ⟨payload⟩)
      else none
    else none
  else none

/-- convertImageUrlToPart embeds the image conversion: a base64 data
URL becomes an inline binary part, anything else degrades to a text
placeholder. -/
def convertImageUrlToPart (url : String) : GeminiPart :=
  match dataUrlMatch url with
  | none => GeminiPart.text ("Image URL: " ++ url)
  | some (mime, payload) => GeminiPart.inlineData mime payload

/-- convertMessageContent embeds the per-message content conversion to
provider-native parts. -/
def convertMessageContent : MessageContent → List GeminiPart
  | MessageContent.str s => [GeminiPart.text s]
  | MessageContent.parts ps =>
    ps.map (fun p =>
      match p with
      | OpenAIContentPart.text t => GeminiPart.text t
      | OpenAIContentPart.image_url u => convertImageUrlToPart u)

mutual
/-- sanitizeSchema embeds the recursive schema cleanup: the
additionalProperties and nullable keywords are stripped from every
object, arrays are sanitized elementwise, and primitives (and null)
pass through. -/
def sanitizeSchema : Json → Json
  | Json.arr xs => Json.arr (sanitizeSchemaList xs)
  | Json.obj fs => Json.obj (sanitizeSchemaFields fs)
  | j => j
termination_by structural j => j

/-- sanitizeSchemaList sanitizes array elements. -/
def sanitizeSchemaList : List Json → List Json
  | [] => []
  | x :: xs => sanitizeSchema x :: sanitizeSchemaList xs
termination_by structural xs => xs

/-- sanitizeSchemaFields drops the two non-portable keywords and
sanitizes the remaining field values. -/
def sanitizeSchemaFields : List (String × Json) → List (String × Json)
  | [] => []
  | (k, v) :: fs =>
    if k = "additionalProperties" ∨ k = "nullable" then sanitizeSchemaFields fs
    else (k, sanitizeSchema v) :: sanitizeSchemaFields fs
termination_by structural fs => fs
end

/-- buildGeminiRequest embeds the outbound adaptation: system text
hoisted into a system instruction when nonempty, non-system messages
mapped to user/model contents, function tools mapped to sanitized
function declarations, and a forced function tool choice mapped to the
ANY function-calling mode restricted to the chosen name. -/
def buildGeminiRequest (envModel : Option String) (payload : LovableChatPayload) :
    String × GeminiRequest :=
  let model := normalizeModel envModel payload.model
  let systemText := extractSystemText payload.messages
  let contents := (payload.messages.filter (fun m => m.role ≠ OpenAIRole.system)).map
    (fun m =>
      { role := if m.role = OpenAIRole.assistant then "model" else "user",
        parts := convertMessageContent m.content })
  let systemInstruction : Option GeminiSystemInstruction :=
    match systemText with
    | some t => if t ≠ "" then some { role := "system", parts := [t] } else none
    | none => none
  let tools : Option (List (List GeminiFunctionDeclaration)) :=
    match payload.tools with
    | some ts =>
      if ts.length ≠ 0 then
        let functionDeclarations := (ts.filter (fun t => t.type = "function")).map
          (fun t =>
            { name := t.function.name,
              description := t.function.description,
              parameters := t.function.parameters.map sanitizeSchema })
        if functionDeclarations.length ≠ 0 then some [functionDeclarations] else none
      else none
    | none => none
  let toolConfig : Option GeminiToolConfig :=
    match payload.tool_choice with
    | some tc =>
      if tc.type = "function" then
        match tc.function with
        | some f =>
          if f.name ≠ "" then
            some { functionCallingConfig :=
              { mode := "ANY", allowedFunctionNames := some [f.name] } }
          else none
        | none => none
      else none
    | none => none
  (model, { contents := contents, systemInstruction := systemInstruction,
            tools := tools, toolConfig := toolConfig })

/-- geminiParts reads candidates[0].content.parts of a raw provider
response, with a missing or non-array field read as the empty list. -/
def geminiParts (aiData : Json) : List Json :=
  match ((jGet aiData "candidates").bind (fun c => jIndex c 0)).bind
      (fun cand => (jGet cand "content").bind (fun ct => jGet ct "parts")) with
  | some (Json.arr xs) => xs
  | _ => []

/-- geminiTextParts joins the text of the parts whose text field is a
string, in order, with no separator. -/
def geminiTextParts (aiData : Json) : String :=
  String.join ((geminiParts aiData).filterMap (fun p =>
    match jGet p "text" with
    | some (Json.str s) => some s
    | _ => none))

/-- geminiFunctionCall finds the first part with a truthy functionCall
field and returns that field's value. -/
def geminiFunctionCall (aiData : Json) : Option Json :=
  (geminiParts aiData).findSome? (fun p =>
    match jGet p "functionCall" with
    | some v => if jTruthyV v then some v else none
    | none => none)

/-- geminiCallArgs reads the call arguments: the args field, falling
back to the arguments field under nullish coalescing. -/
def geminiCallArgs (fc : Json) : Option Json :=
  jsNullish (jGet fc "args") (jGet fc "arguments")

/-- geminiArgumentsJson is the arguments string of a normalized tool
call: a string args value verbatim, anything else (with absent or null
read as the empty object) serialized with JSON.stringify. -/
def geminiArgumentsJson (fc : Json) : String :=
  match geminiCallArgs fc with
  | some (Json.str s) => s
  | some Json.null => jsonStringify (Json.obj [])
  | some j => jsonStringify j
  | none => jsonStringify (Json.obj [])

/-- normalizeGeminiToLovable embeds the inbound adaptation: a function
call part wins and yields one tool call; otherwise nonempty text that
parses as JSON is turned into a tool call (a parsed string verbatim,
any other parsed value re-serialized); otherwise the text is carried
as plain content; a response with neither text nor a tool call
normalizes to none. -/
def normalizeGeminiToLovable (aiData : Json) : Option LovableLikeResponse :=
  let textParts := geminiTextParts aiData
  let toolCalls : Option (List LovableToolCall) :=
    match geminiFunctionCall aiData with
    | some fc => some [{ function := { arguments := geminiArgumentsJson fc } }]
    | none =>
      if textParts ≠ "" then
        match jsonParse (jsTrim textParts) with
        | some parsed =>
          let argumentsJson :=
            match parsed with
            | Json.str s => s
            | j => jsonStringify j
          some [{ function := { arguments := argumentsJson } }]
        | none => none
      else none
  if textParts = "" ∧ toolCalls = none then none
  else some { choices := [{ message := { content := textParts, tool_calls := toolCalls } }] }

/-! Embedding of the analyze-job request handler: the credit ledger,
input validation, two-tier content fetch, AI extraction and the
top-level catch.  External collaborators (authentication, the
subscription row, the direct fetch, the scraping API, the AI gateway)
are modelled as oracles in a World record; each holds exactly the data
the handler reads from that collaborator.  Statements that can throw
in the source are modelled with Except over a ThrownError. -/

/-- Subscription is the read projection of the user's subscription
row: remaining and used AI credits. -/
structure Subscription where
  ai_credits_remaining : Int
  ai_credits_used : Int
deriving Repr, DecidableEq

/-- ThrownError is a thrown JavaScript value as the top-level catch
inspects it: whether it is an Error instance, and its message. -/
structure ThrownError where
  isError : Bool
  message : String
deriving Repr, DecidableEq

/-- FirecrawlResp is what the handler reads from the scraping API
call: the HTTP ok flag, the success flag of the parsed body (its
truthiness), the optional error string, and the optional markdown and
title of the data field. -/
structure FirecrawlResp where
  ok : Bool
  success : Bool
  error : Option String
  markdown : Option String
  metaTitle : Option String
deriving Repr, DecidableEq

/-- AiResp is what the handler reads from the AI gateway response: the
HTTP ok flag and status, and the parsed JSON body (whose parse can
throw). -/
structure AiResp where
  ok : Bool
  status : Nat
  body : Except ThrownError Json
deriving Repr

/-- Env is the environment configuration the handler reads. -/
structure Env where
  firecrawlKey : Option String
  geminiKey : Option String
deriving Repr

/-- Request is the inbound request as the handler reads it: the
Authorization header and the parsed JSON body (whose parse can
throw). -/
structure Request where
  authHeader : Option String
  body : Except ThrownError Json
deriving Repr

/-- World gathers the oracles for the external collaborators of one
request: the authenticated user, the subscription row as read, the
row's state when the conditional update runs (they differ exactly when
a concurrent request intervened), a database error flag for the
update, the content produced by the LinkedIn direct-fetch branch (none
when the fetch failed, timed out or returned a non-ok status; the
title/meta/JSON-LD/body extraction itself is abstracted as this
oracle), the scraping API call and the AI gateway call. -/
structure World where
  authUser : Option String
  subRead : Option Subscription
  dbAtUpdate : Option Subscription
  creditError : Bool
  directFetchContent : Option String
  firecrawl : Except ThrownError FirecrawlResp
  aiResponse : Except ThrownError AiResp
deriving Repr

/-- Effect records one outbound side effect of a request, in order:
the attempted conditional credit update, the direct fetch of the
target URL, the scraping API call with its request parameters, and
the AI model call. -/
inductive Effect where
  | creditUpdate (newRemaining : Int) (newUsed : Int)
  | directFetch (url : String)
  | firecrawlFetch (url : String) (formats : List String) (onlyMainContent : Bool)
  | aiCall
deriving Repr, DecidableEq

/-- isFetchEffect holds on the two outbound fetches of page content. -/
def isFetchEffect : Effect → Bool
  | Effect.directFetch _ => true
  | Effect.firecrawlFetch _ _ _ => true
  | _ => false

/-- isCreditUpdateEffect holds on the conditional credit update. -/
def isCreditUpdateEffect : Effect → Bool
  | Effect.creditUpdate _ _ => true
  | _ => false

/-- ApiResponse is the JSON response body of the handler together
with its HTTP status: the success flag, the optional error string,
the two failure flags and the optional data payload. -/
structure ApiResponse where
  status : Nat
  success : Bool
  error : Option String
  unsupportedSite : Bool := false
  noContent : Bool := false
  data : Option Json := none
deriving Repr

/-- BodyOutcome is the outcome of the try block of the handler: the
effects performed, the final state of the subscription row, and either
a response or a thrown error. -/
structure BodyOutcome where
  effects : List Effect
  db : Option Subscription
  result : Except ThrownError ApiResponse
deriving Repr

/-- HandlerResult is the observable outcome of one request after the
top-level catch: the response sent, the effects performed and the
final state of the subscription row. -/
structure HandlerResult where
  response : ApiResponse
  effects : List Effect
  db : Option Subscription
deriving Repr

/-- resp401Login is the missing-Authorization-header response. -/
def resp401Login : ApiResponse :=
  { status := 401, success := false, error := some "로그인이 필요합니다. 다시 로그인한 뒤 재시도해주세요." }

/-- resp401Expired is the failed-authentication response. -/
def resp401Expired : ApiResponse :=
  { status := 401, success := false, error := some "인증이 만료되었습니다. 다시 로그인해주세요." }

/-- resp404Subscription is the missing-subscription response. -/
def resp404Subscription : ApiResponse :=
  { status := 404, success := false, error := some "구독 정보를 찾을 수 없습니다. 결제 상태를 확인하거나 고객센터에 문의해주세요." }

/-- resp402Credits is the exhausted-credits response. -/
def resp402Credits : ApiResponse :=
  { status := 402, success := false, error := some "AI 크레딧이 부족합니다. 플랜을 업그레이드하거나 크레딧을 충전해주세요." }

/-- resp409Conflict is the credit-race conflict response. -/
def resp409Conflict : ApiResponse :=
  { status := 409, success := false, error := some "크레딧 차감에 실패했습니다. 잠시 후 다시 시도해주세요." }

/-- resp400Schema is the request-shape validation response. -/
def resp400Schema : ApiResponse :=
  { status := 400, success := false, error := some "요청 형식이 올바르지 않습니다. 입력 값을 확인하고 다시 시도해주세요." }

/-- resp500Firecrawl is the missing-scraping-key response. -/
def resp500Firecrawl : ApiResponse :=
  { status := 500, success := false, error := some "페이지 분석 설정이 완료되지 않았습니다. 잠시 후 다시 시도하거나 고객센터에 문의해주세요." }

/-- resp500Gemini is the missing-AI-key response. -/
def resp500Gemini : ApiResponse :=
  { status := 500, success := false, error := some "AI 설정이 완료되지 않았습니다. 잠시 후 다시 시도하거나 고객센터에 문의해주세요." }

/-- respUnsupportedSite is the unsupported-site response with its
distinct flag. -/
def respUnsupportedSite : ApiResponse :=
  { status := 400, success := false,
    error := some "LinkedIn 공고는 현재 자동 분석이 제한됩니다. 공고 내용을 직접 복사하여 입력해주세요.",
    unsupportedSite := true }

/-- respFetchFailed is the generic scrape-failure response. -/
def respFetchFailed : ApiResponse :=
  { status := 400, success := false, error := some "페이지 내용을 가져오지 못했습니다. URL을 확인하거나 공고 내용을 직접 입력해주세요." }

/-- respContentTooShort is the could-not-retrieve-content response
returned when the final content is empty or under 50 characters. -/
def respContentTooShort : ApiResponse :=
  { status := 400, success := false, error := some "페이지 내용을 가져올 수 없습니다. URL을 확인하거나 공고 내용을 직접 입력해주세요." }

/-- resp429RateLimited is the upstream rate-limit response. -/
def resp429RateLimited : ApiResponse :=
  { status := 429, success := false, error := some "요청이 너무 많습니다. 잠시 후 다시 시도해주세요." }

/-- resp402AiCredits is the AI-gateway payment-required response. -/
def resp402AiCredits : ApiResponse :=
  { status := 402, success := false, error := some "AI 크레딧이 필요합니다. 크레딧을 충전한 뒤 다시 시도해주세요." }

/-- resp500AiFailed is the generic AI-failure response. -/
def resp500AiFailed : ApiResponse :=
  { status := 500, success := false, error := some "AI 분석에 실패했습니다. 잠시 후 다시 시도해주세요." }

/-- respNoContent is the no-content-extracted response with its
distinct flag. -/
def respNoContent : ApiResponse :=
  { status := 400, success := false,
    error := some "공고 내용을 추출할 수 없습니다. 페이지가 마감되었거나 접근할 수 없는 상태일 수 있습니다.",
    noContent := true }

/-- respNotAPosting is the not-a-job-posting response. -/
def respNotAPosting : ApiResponse :=
  { status := 400, success := false, error := some "공고가 아닙니다. 채용 공고 URL을 입력해주세요." }

/-- fallbackServerError is the fixed generic message of the top-level
catch. -/
def fallbackServerError : String := "서버 오류가 발생했습니다. 잠시 후 다시 시도해주세요."

/-- containsKorean models the regular expression testing for a Korean
syllable (the character class from 가 to 힣). -/
def containsKorean (s : String) : Bool :=
  s.data.any (fun c => 0xac00 ≤ c.toNat ∧ c.toNat ≤ 0xd7a3)

/-- catchResponse embeds the top-level catch: an Error whose message
contains a Korean syllable passes its message through, everything else
gets the fixed generic message, always with status 500. -/
def catchResponse (e : ThrownError) : ApiResponse :=
  let safeMessage :=
    if e.isError ∧ containsKorean e.message then e.message else fallbackServerError
  { status := 500, success := false, error := some safeMessage }

/-- requestSchemaSafeParse models the zod request schema: an object
whose url field is a string of length 1 to 2000. -/
def requestSchemaSafeParse (j : Json) : Option String :=
  match j with
  | Json.obj _ =>
    match jGet j "url" with
    | some (Json.str s) => if 1 ≤ s.length ∧ s.length ≤ 2000 then some s else none
    | _ => none
  | _ => none

/-- casApply is the database side of the conditional update
statement: the row is rewritten to the observed remaining count minus
one and the observed used count plus one exactly when the current
remaining count still equals the observed one; otherwise no row
matches the update's filters and the row is left as it is. -/
def casApply (current : Option Subscription) (observed : Subscription) :
    Option Subscription :=
  match current with
  | none => none
  | some d =>
    if d.ai_credits_remaining = observed.ai_credits_remaining then
      some { ai_credits_remaining := observed.ai_credits_remaining - 1,
             ai_credits_used := observed.ai_credits_used + 1 }
    else some d

/-- creditUpdateCount is the count field of the conditional update's
response.  Modelled from the supabase client: the source calls
update() with no count option, so no row count is requested and the
response's count is null (none) whatever the number of rows the update
affected. -/
def creditUpdateCount : Option Nat := none

/-- jsStrictEqNat models the JavaScript strict equality comparison of
a possibly-null number with a number literal: null === n is false. -/
def jsStrictEqNat (a : Option Nat) (n : Nat) : Bool :=
  match a with
  | some m => m == n
  | none => false

/-- directContent0 is the page content after the first fetch tier:
for a URL containing linkedin.com the extracted content of the direct
fetch (empty when that fetch failed), and empty for every other
URL (no direct fetch is attempted). -/
def directContent0 (w : World) (formattedUrl : String) : String :=
  if containsSubstr formattedUrl "linkedin.com" then w.directFetchContent.getD "" else ""

/-- fetchStage embeds the content-fetch tiers: for a URL containing
linkedin.com a direct fetch whose extracted content is read from the
oracle, then the scraping API whenever the content so far is empty or
under 100 characters, then the final under-50-characters check.  The
result is either an error response or the page content. -/
def fetchStage (w : World) (formattedUrl : String) :
    List Effect × Except ThrownError (Sum ApiResponse String) :=
  let isLinkedIn := containsSubstr formattedUrl "linkedin.com"
  let effsDirect := if isLinkedIn then [Effect.directFetch formattedUrl] else []
  let pageContent0 := directContent0 w formattedUrl
  let afterFallback : List Effect × Except ThrownError (Sum ApiResponse String) :=
    if pageContent0 = "" ∨ pageContent0.length < 100 then
      (effsDirect ++ [Effect.firecrawlFetch formattedUrl ["markdown"] true],
        match w.firecrawl with
        | Except.error e => Except.error e
        | Except.ok scrapeData =>
          if scrapeData.ok = false ∨ scrapeData.success = false then
            let isUnsupported :=
              match scrapeData.error with
              | some msg => containsSubstr msg "not currently supported"
              | none => false
            if isUnsupported then Except.ok (Sum.inl respUnsupportedSite)
            else Except.ok (Sum.inl respFetchFailed)
          else Except.ok (Sum.inr (scrapeData.markdown.getD "")))
    else (effsDirect, Except.ok (Sum.inr pageContent0))
  match afterFallback with
  | (effs, Except.ok (Sum.inr pageContent)) =>
    if pageContent = "" ∨ pageContent.length < 50 then
      (effs, Except.ok (Sum.inl respContentTooShort))
    else (effs, Except.ok (Sum.inr pageContent))
  | other => other

/-- toolCallOf reads the first tool call of the normalized AI data,
modelling the optional chain choices[0].message.tool_calls[0]. -/
def toolCallOf (aiData : Option LovableLikeResponse) : Option LovableToolCall :=
  ((aiData.bind (fun d => d.choices.head?)).bind
    (fun c => c.message.tool_calls)).bind List.head?

/-- extractedJobData embeds the tool-call argument parsing: a present,
nonempty arguments string is parsed as JSON; a missing tool call, an
empty arguments string, a parse failure or a falsy parsed value all
leave the job data absent. -/
def extractedJobData (toolCall : Option LovableToolCall) : Option Json :=
  match toolCall with
  | some tc =>
    if tc.function.arguments ≠ "" then
      match jsonParse tc.function.arguments with
      | some v => if jTruthyV v then some v else none
      | none => none
    else none
  | none => none

/-- jobFields reads the own fields a spread of the job data object
contributes (a non-object spreads to nothing observable here). -/
def jobFields : Json → List (String × Json)
  | Json.obj fs => fs
  | _ => []

/-- successData is the 200 payload: the job data spread with the
request's sourceUrl. -/
def successData (jobData : Json) (url : String) : Json :=
  Json.obj ((jobFields jobData).filter (fun kv => kv.1 ≠ "sourceUrl") ++
    [("sourceUrl", Json.str url)])

/-- aiStage embeds the extraction step: the AI gateway call, its
status-dependent error responses, normalization of its body, tool-call
parsing with the no-content and not-a-posting branches, and the 200
response carrying the extracted data plus the source URL. -/
def aiStage (w : World) (url : String) : List Effect × Except ThrownError ApiResponse :=
  ([Effect.aiCall],
    match w.aiResponse with
    | Except.error e => Except.error e
    | Except.ok aiResponse =>
      if aiResponse.ok = false then
        if aiResponse.status = 429 then Except.ok resp429RateLimited
        else if aiResponse.status = 402 then Except.ok resp402AiCredits
        else Except.ok resp500AiFailed
      else
        match aiResponse.body with
        | Except.error e => Except.error e
        | Except.ok aiDataRaw =>
          let aiData := normalizeGeminiToLovable aiDataRaw
          match extractedJobData (toolCallOf aiData) with
          | none => Except.ok respNoContent
          | some jobData =>
            match jGet jobData "isJobPosting" with
            | some (Json.bool false) => Except.ok respNotAPosting
            | _ => Except.ok { status := 200, success := true, error := none,
                               data := some (successData jobData url) })

/-- fetchAiPipeline composes the fetch tiers with the extraction step:
a fetch-stage error response short-circuits, content flows into the AI
stage. -/
def fetchAiPipeline (w : World) (url formattedUrl : String) :
    List Effect × Except ThrownError ApiResponse :=
  let fs := fetchStage w formattedUrl
  match fs.2 with
  | Except.error e => (fs.1, Except.error e)
  | Except.ok (Sum.inl resp) => (fs.1, Except.ok resp)
  | Except.ok (Sum.inr _pageContent) =>
    let ai := aiStage w url
    (fs.1 ++ ai.1, ai.2)

/-- analyzeJobBody embeds the try block of the handler in source
order: authentication, subscription read, fail-fast credit check, the
conditional credit deduction and its conflict branch (which tests
creditError and updatedCount === 0; the update requests no row count,
so the count is null and that branch fires only on a database error),
request body parse and schema validation, URL validation, environment
checks, then the fetch and extraction pipeline. -/
def analyzeJobBody (env : Env) (req : Request) (w : World) : BodyOutcome :=
  match req.authHeader with
  | none => { effects := [], db := w.dbAtUpdate, result := Except.ok resp401Login }
  | some _ =>
    match w.authUser with
    | none => { effects := [], db := w.dbAtUpdate, result := Except.ok resp401Expired }
    | some _ =>
      match w.subRead with
      | none => { effects := [], db := w.dbAtUpdate, result := Except.ok resp404Subscription }
      | some subscription =>
        if subscription.ai_credits_remaining < 1 then
          { effects := [], db := w.dbAtUpdate, result := Except.ok resp402Credits }
        else
          let db' := if w.creditError then w.dbAtUpdate
                     else casApply w.dbAtUpdate subscription
          let effs0 := [Effect.creditUpdate (subscription.ai_credits_remaining - 1)
                          (subscription.ai_credits_used + 1)]
          if w.creditError ∨ jsStrictEqNat creditUpdateCount 0 then
            { effects := effs0, db := db', result := Except.ok resp409Conflict }
          else
            match req.body with
            | Except.error e => { effects := effs0, db := db', result := Except.error e }
            | Except.ok rawBody =>
              match requestSchemaSafeParse rawBody with
              | none => { effects := effs0, db := db', result := Except.ok resp400Schema }
              | some url =>
                let urlValidation := validateUrl url
                match urlValidation.valid, urlValidation.url with
                | true, some formattedUrl =>
                  match env.firecrawlKey with
                  | none => { effects := effs0, db := db',
                              result := Except.ok resp500Firecrawl }
                  | some _ =>
                    match env.geminiKey with
                    | none => { effects := effs0, db := db',
                                result := Except.ok resp500Gemini }
                    | some _ =>
                      let pipeline := fetchAiPipeline w url formattedUrl
                      { effects := effs0 ++ pipeline.1, db := db', result := pipeline.2 }
                | _, _ =>
                  { effects := effs0, db := db',
                    result := Except.ok { status := 400, success := false,
                                          error := urlValidation.error } }

/-- analyzeJob is the whole handler: the try block with the top-level
catch folded in. -/
def analyzeJob (env : Env) (req : Request) (w : World) : HandlerResult :=
  let b := analyzeJobBody env req w
  match b.result with
  | Except.ok r => { response := r, effects := b.effects, db := b.db }
  | Except.error e => { response := catchResponse e, effects := b.effects, db := b.db }

/-- urlStartsWithScheme decides whether an input string begins with a
URL scheme followed by a colon (the condition under which the raw
input already carries a scheme for the URL constructor). -/
def urlStartsWithScheme (s : String) : Bool :=
  (urlSplitScheme s.data).isSome

/-! Concrete environments, requests and worlds used to instantiate the
theorems below on closed inputs. -/

/-- envW is a fully configured environment. -/
def envW : Env := { firecrawlKey := some "firecrawl-key", geminiKey := some "gemini-key" }

/-- unusedThrow is an oracle value for collaborator calls a given run
never reaches. -/
def unusedThrow : ThrownError := { isError := true, message := "unreachable" }

/-- reqWanted is an authenticated request for a valid allowlisted
wanted.co.kr posting URL. -/
def reqWanted : Request :=
  { authHeader := some "Bearer token",
    body := Except.ok (Json.obj [("url", Json.str "wanted.co.kr/wd/12345")]) }

/-- reqLookalike is an authenticated request for a lookalike hostname
that must not match the allowlist. -/
def reqLookalike : Request :=
  { authHeader := some "Bearer token",
    body := Except.ok (Json.obj [("url", Json.str "notlinkedin.com/jobs/1")]) }

/-- reqBodyBroken is an authenticated request whose JSON body fails to
parse, so reading it throws a SyntaxError (an Error instance with an
English message). -/
def reqBodyBroken : Request :=
  { authHeader := some "Bearer token",
    body := Except.error { isError := true, message := "Unexpected token u in JSON at position 0" } }

/-- longMarkdown is a 60-character scraped markdown payload, above the
50-character threshold. -/
def longMarkdown : String := String.mk (List.replicate 60 'a')

/-- firecrawlOkLong is a successful scraping response with content
above the length threshold. -/
def firecrawlOkLong : FirecrawlResp :=
  { ok := true, success := true, error := none, markdown := some longMarkdown, metaTitle := none }

/-- firecrawlUnsupported is a failed scraping response carrying the
distinctive unsupported-site error message. -/
def firecrawlUnsupported : FirecrawlResp :=
  { ok := true, success := false,
    error := some "This website is not currently supported", markdown := none, metaTitle := none }

/-- firecrawlShort is a successful scraping response whose content is
under the 50-character threshold. -/
def firecrawlShort : FirecrawlResp :=
  { ok := true, success := true, error := none, markdown := some "tiny", metaTitle := none }

/-- geminiTextOnly is a provider response whose single part is
non-JSON text with no function call. -/
def geminiTextOnly : Json :=
  Json.obj [("candidates", Json.arr [Json.obj [("content", Json.obj [("parts", Json.arr [
    Json.obj [("text", Json.str "sorry, I could not find a job posting here")]])])]])]

/-- geminiStringArgs is a provider response whose function-call part
carries a plain (non-JSON) string as its args value. -/
def geminiStringArgs : Json :=
  Json.obj [("candidates", Json.arr [Json.obj [("content", Json.obj [("parts", Json.arr [
    Json.obj [("functionCall", Json.obj [("name", Json.str "extract_job_posting"),
      ("args", Json.str "hello")])]])])]])]

/-- geminiObjArgs is a provider response whose function-call part
carries an object args value. -/
def geminiObjArgs : Json :=
  Json.obj [("candidates", Json.arr [Json.obj [("content", Json.obj [("parts", Json.arr [
    Json.obj [("functionCall", Json.obj [("name", Json.str "extract_job_posting"),
      ("args", Json.obj [("isJobPosting", Json.bool true), ("companyName", Json.str "Acme")])])]])])]])]

/-- aiOkTextOnly is an ok AI gateway response whose body normalizes to
text with no tool call. -/
def aiOkTextOnly : AiResp := { ok := true, status := 200, body := Except.ok geminiTextOnly }

/-- wBase is a world with three credits, an uncontended ledger and a
successful non-LinkedIn scrape; the AI call returns non-JSON text. -/
def wBase : World :=
  { authUser := some "user-1", subRead := some ⟨3, 0⟩, dbAtUpdate := some ⟨3, 0⟩,
    creditError := false, directFetchContent := none,
    firecrawl := Except.ok firecrawlOkLong,
    aiResponse := Except.ok aiOkTextOnly }

/-- wOneCredit is a world with exactly one remaining credit and an
uncontended ledger; the fetch oracles are never reached in the runs
that use it. -/
def wOneCredit : World :=
  { authUser := some "user-1", subRead := some ⟨1, 0⟩, dbAtUpdate := some ⟨1, 0⟩,
    creditError := false, directFetchContent := none,
    firecrawl := Except.error unusedThrow,
    aiResponse := Except.error unusedThrow }

/-- wUnsupported is wBase with the scraping API reporting the
unsupported-site error. -/
def wUnsupported : World := { wBase with firecrawl := Except.ok firecrawlUnsupported }

/-- wShortContent is wBase with the scraping API returning content
under the 50-character threshold. -/
def wShortContent : World := { wBase with firecrawl := Except.ok firecrawlShort }

/-- extractTool is the function tool of a chat payload with a forced
single-function tool choice, as the analyze-job function builds one. -/
def extractTool : OpenAITool :=
  { type := "function",
    function :=
      { name := "extract_job_posting",
        description := some "Extract structured job posting information with evidence",
        parameters := some (Json.obj [("type", Json.str "object"), ("additionalProperties", Json.bool false)]) } }

/-- payloadForced is the chat payload itself. -/
def payloadForced : LovableChatPayload :=
  { model := some "google/gemini-2.5-flash",
    messages := [
      { role := OpenAIRole.system, content := MessageContent.str "You are a job posting analyzer." },
      { role := OpenAIRole.user, content := MessageContent.str "Job posting content" }],
    tools := some [extractTool],
    tool_choice := some { type := "function", function := some { name := "extract_job_posting" } } }

/-- wZeroCredit is a world whose subscription has no remaining
credits. -/
def wZeroCredit : World :=
  { authUser := some "user-1", subRead := some ⟨0, 2⟩, dbAtUpdate := some ⟨0, 2⟩,
    creditError := false, directFetchContent := none,
    firecrawl := Except.error unusedThrow,
    aiResponse := Except.error unusedThrow }

/-- wContendedRacer is the world seen by the second of two concurrent
requests racing on one remaining credit: it read the same one-credit
row, but by the time its conditional update runs the first request's
deduction has been applied, so the update matches no row.  Its fetch
succeeds and its AI response is non-JSON text, exhibiting how far the
contended request runs. -/
def wContendedRacer : World :=
  { authUser := some "user-1", subRead := some ⟨1, 0⟩, dbAtUpdate := some ⟨0, 1⟩,
    creditError := false, directFetchContent := none,
    firecrawl := Except.ok firecrawlOkLong,
    aiResponse := Except.ok aiOkTextOnly }

/-! Helper lemmas about the effects and the ledger state of a run,
shared by the claim theorems below. -/

/-- fetchStage_effects_eq characterizes the effects of the fetch
stage: the direct fetch exactly for LinkedIn URLs, the scraping call
exactly when the first tier's content is empty or under 100
characters. -/
theorem fetchStage_effects_eq (w : World) (f : String) :
    (fetchStage w f).1 =
      (if containsSubstr f "linkedin.com" then [Effect.directFetch f] else []) ++
      (if directContent0 w f = "" ∨ (directContent0 w f).length < 100
        then [Effect.firecrawlFetch f ["markdown"] true] else []) := by
  unfold fetchStage
  by_cases h1 : directContent0 w f = "" ∨ (directContent0 w f).length < 100
  · rcases hfc : w.firecrawl with e | fr <;>
      simp [h1, hfc] <;> split_ifs <;> simp <;> split_ifs <;> simp
  · simp [h1]
    split_ifs <;> simp

/-- aiStage_effects_eq: the AI stage performs exactly the model
call. -/
theorem aiStage_effects_eq (w : World) (url : String) :
    (aiStage w url).1 = [Effect.aiCall] := rfl

/-- fetchAiPipeline_effects_fetchOrAi: the fetch-and-extract pipeline
only performs fetch effects and the model call. -/
theorem fetchAiPipeline_effects_fetchOrAi (w : World) (url f : String) :
    ∀ e ∈ (fetchAiPipeline w url f).1, isFetchEffect e = true ∨ e = Effect.aiCall := by
  intro e he
  unfold fetchAiPipeline at he
  have hfs : ∀ x ∈ (fetchStage w f).1, isFetchEffect x = true := by
    intro x hx
    rw [fetchStage_effects_eq] at hx
    rcases List.mem_append.mp hx with h | h <;> split_ifs at h <;>
      simp_all [isFetchEffect]
  rcases h2 : (fetchStage w f).2 with err | sv
  · simp only [h2] at he
    exact Or.inl (hfs e he)
  · rcases sv with resp | content <;> simp only [h2] at he
    · exact Or.inl (hfs e he)
    · rcases List.mem_append.mp he with h | h
      · exact Or.inl (hfs e h)
      · rw [aiStage_effects_eq] at h
        simp at h
        exact Or.inr h

/-- fetchAiPipeline_no_credit: the fetch-and-extract pipeline never
touches the credit ledger. -/
theorem fetchAiPipeline_no_credit (w : World) (url f : String) :
    (fetchAiPipeline w url f).1.countP isCreditUpdateEffect = 0 := by
  rw [List.countP_eq_zero]
  intro e he
  rcases fetchAiPipeline_effects_fetchOrAi w url f e he with h | h
  · rcases e <;> simp_all [isFetchEffect, isCreditUpdateEffect]
  · subst h; simp [isCreditUpdateEffect]

/-- analyzeJobBody_reach: a run that passes authentication, the
credit check, an uncontended conditional update, body validation, URL
validation and the environment checks reduces to the fetch-and-extract
pipeline, with the deduction applied to the row. -/
theorem analyzeJobBody_reach
    (env : Env) (req : Request) (w : World)
    (ah uid fk gk : String) (sub d : Subscription) (bodyJson : Json) (url f : String)
    (hah : req.authHeader = some ah)
    (hau : w.authUser = some uid)
    (hsub : w.subRead = some sub)
    (hcred : ¬ sub.ai_credits_remaining < 1)
    (hce : w.creditError = false)
    (hdb : w.dbAtUpdate = some d)
    (hmatch : d.ai_credits_remaining = sub.ai_credits_remaining)
    (hbody : req.body = Except.ok bodyJson)
    (hurl : requestSchemaSafeParse bodyJson = some url)
    (hvalid : validateUrl url = { valid := true, error := none, url := some f })
    (hfk : env.firecrawlKey = some fk)
    (hgk : env.geminiKey = some gk) :
    analyzeJobBody env req w =
      { effects := Effect.creditUpdate (sub.ai_credits_remaining - 1) (sub.ai_credits_used + 1) ::
          (fetchAiPipeline w url f).1,
        db := some { ai_credits_remaining := sub.ai_credits_remaining - 1,
                     ai_credits_used := sub.ai_credits_used + 1 },
        result := (fetchAiPipeline w url f).2 } := by
  unfold analyzeJobBody
  simp only [hah, hau, hsub, hce, hdb, hbody, hurl, hvalid, hfk, hgk, casApply,
    creditUpdateCount, jsStrictEqNat, if_neg hcred, if_pos hmatch]
  simp

/-- analyzeJobBody_ledger: once the credit check and the uncontended
conditional update succeed, the row holds the deducted balance and the
run performs exactly one credit update, regardless of how the rest of
the pipeline ends. -/
theorem analyzeJobBody_ledger
    (env : Env) (req : Request) (w : World)
    (ah uid : String) (sub d : Subscription)
    (hah : req.authHeader = some ah)
    (hau : w.authUser = some uid)
    (hsub : w.subRead = some sub)
    (hcred : ¬ sub.ai_credits_remaining < 1)
    (hce : w.creditError = false)
    (hdb : w.dbAtUpdate = some d)
    (hmatch : d.ai_credits_remaining = sub.ai_credits_remaining) :
    (analyzeJobBody env req w).db =
      some { ai_credits_remaining := sub.ai_credits_remaining - 1,
             ai_credits_used := sub.ai_credits_used + 1 } ∧
    (analyzeJobBody env req w).effects.countP isCreditUpdateEffect = 1 := by
  unfold analyzeJobBody
  simp only [hah, hau, hsub, hce, hdb, casApply, creditUpdateCount, jsStrictEqNat,
    if_neg hcred, if_pos hmatch]
  simp only [Bool.false_eq_true, false_or, if_false]
  rcases hb : req.body with e | bodyJson
  · simp [isCreditUpdateEffect]
  · rcases hp : requestSchemaSafeParse bodyJson with _ | url
    · simp [hp, isCreditUpdateEffect]
    · rcases hv : (validateUrl url).valid with _ | _
      all_goals rcases hvu : (validateUrl url).url with _ | f
      all_goals simp only [hp, hv, hvu]
      all_goals try (simp [isCreditUpdateEffect]; done)
      rcases hfk : env.firecrawlKey with _ | fk
      · simp [hfk, isCreditUpdateEffect]
      rcases hgk : env.geminiKey with _ | gk
      · simp [hfk, hgk, isCreditUpdateEffect]
      simp [hfk, hgk, isCreditUpdateEffect, List.countP_cons, fetchAiPipeline_no_credit]

/-- Claim C10: in normalizeGeminiToLovable, when the candidate parts
carry text but no function-call part and the trimmed concatenated text
does not parse as JSON, the normalized response carries that text as
the message content with tool_calls absent — a tool call is never
fabricated from non-JSON text. -/
theorem C10_nonjson_text_keeps_content (raw : Json)
    (hnofc : geminiFunctionCall raw = none)
    (hne : geminiTextParts raw ≠ "")
    (hparse : jsonParse (jsTrim (geminiTextParts raw)) = none) :
    normalizeGeminiToLovable raw =
      some { choices := [{ message := { content := geminiTextParts raw, tool_calls := none } }] } := by
  unfold normalizeGeminiToLovable
  simp only [hnofc, if_pos hne, hparse]
  simp [hne]

/-- Witness for C10 on a concrete provider response whose only part is
non-JSON text. -/
theorem C10_witness :
    geminiFunctionCall geminiTextOnly = none ∧
    geminiTextParts geminiTextOnly = "sorry, I could not find a job posting here" ∧
    normalizeGeminiToLovable geminiTextOnly =
      some { choices := [{ message := { content := "sorry, I could not find a job posting here", tool_calls := none } }] } := by
  refine ⟨rfl, rfl, ?_⟩
  exact C10_nonjson_text_keeps_content geminiTextOnly rfl (by decide) rfl

/-- Counterexample to claim C7 as stated: a provider response whose
function-call part carries the plain string hello as its args value is
adapted back with tool_calls[0].function.arguments equal to that
string verbatim, which is not a valid JSON string (JSON.parse fails on
it) and not a serialization of the args. -/
theorem C7_counterexample :
    geminiFunctionCall geminiStringArgs =
      some (Json.obj [("name", Json.str "extract_job_posting"), ("args", Json.str "hello")]) ∧
    normalizeGeminiToLovable geminiStringArgs =
      some { choices := [{ message := { content := "", tool_calls := some [{ function := { arguments := "hello" } }] } }] } ∧
    jsonParse "hello" = none := by
  refine ⟨rfl, rfl, rfl⟩

/-- Claim C7 as amended: a forced single-function tool choice yields a
provider request restricted to function-calling mode ANY with exactly
that one allowed function name; and a provider response with a
function-call part is adapted back with one tool call whose arguments
string is the args value serialized with JSON.stringify when that
value is neither a string (passed through verbatim) nor null or
absent (serialized as the empty object). -/
theorem C7_amended_adapter
    (envModel : Option String) (payload : LovableChatPayload) (f : ToolChoiceFunction)
    (raw fc : Json)
    (hchoice : payload.tool_choice = some { type := "function", function := some f })
    (hname : f.name ≠ "")
    (hfc : geminiFunctionCall raw = some fc) :
    (buildGeminiRequest envModel payload).2.toolConfig =
      some { functionCallingConfig := { mode := "ANY", allowedFunctionNames := some [f.name] } } ∧
    normalizeGeminiToLovable raw =
      some { choices := [{ message := { content := geminiTextParts raw, tool_calls := some [{ function := { arguments := geminiArgumentsJson fc } }] } }] } ∧
    (∀ j, geminiCallArgs fc = some j → (∀ s, j ≠ Json.str s) → j ≠ Json.null →
      geminiArgumentsJson fc = jsonStringify j) := by
  refine ⟨?_, ?_, ?_⟩
  · unfold buildGeminiRequest
    simp only [hchoice]
    simp [hname]
  · unfold normalizeGeminiToLovable
    simp only [hfc]
    simp
  · intro j hj hs hn
    unfold geminiArgumentsJson
    rw [hj]
    rcases j <;> simp_all

/-- Witness for the amended C7 on the analyze-job payload shape and a
provider response with an object args value: the round-tripped
arguments string parses back to the original args object. -/
theorem C7_witness :
    (buildGeminiRequest none payloadForced).2.toolConfig =
      some { functionCallingConfig := { mode := "ANY", allowedFunctionNames := some ["extract_job_posting"] } } ∧
    normalizeGeminiToLovable geminiObjArgs =
      some { choices := [{ message := { content := "", tool_calls := some [{ function := { arguments := "\x7b\"isJobPosting\":true,\"companyName\":\"Acme\"\x7d" } }] } }] } ∧
    jsonParse "\x7b\"isJobPosting\":true,\"companyName\":\"Acme\"\x7d" =
      some (Json.obj [("isJobPosting", Json.bool true), ("companyName", Json.str "Acme")]) := by
  have h := C7_amended_adapter none payloadForced { name := "extract_job_posting" }
    geminiObjArgs
    (Json.obj [("name", Json.str "extract_job_posting"),
      ("args", Json.obj [("isJobPosting", Json.bool true), ("companyName", Json.str "Acme")])])
    rfl (by decide) rfl
  refine ⟨h.1, ?_, rfl⟩
  rw [h.2.1]
  rfl

/-- Counterexample to claim C8 as stated: the input httpbin.org/get
starts with no scheme, yet the validator does not prefix https://
(because the input starts with the four characters http) and rejects
it as malformed instead of parsing the prefixed form. -/
theorem C8_counterexample :
    urlStartsWithScheme "httpbin.org/get" = false ∧
    formatUrl "httpbin.org/get" = "httpbin.org/get" ∧
    formatUrl "httpbin.org/get" ≠ "https://httpbin.org/get" ∧
    validateUrl "httpbin.org/get" =
      { valid := false, error := some errUrlBadFormat, url := none } := by
  refine ⟨rfl, rfl, by decide, by decide⟩

/-- Claim C8 as amended: every input whose trimmed form does not start
with the four characters http is prefixed with https:// before
parsing; in particular wanted.co.kr/wd/12345 is accepted and
normalized to https://wanted.co.kr/wd/12345. -/
theorem C8_amended_scheme (s : String)
    (h : strStartsWith (jsTrim s) "http" = false) :
    formatUrl s = "https://" ++ jsTrim s ∧
    validateUrl "wanted.co.kr/wd/12345" =
      { valid := true, error := none, url := some "https://wanted.co.kr/wd/12345" } := by
  constructor
  · unfold formatUrl
    simp [h]
  · decide

/-- Witness for the amended C8 at the spec's example input. -/
theorem C8_witness :
    strStartsWith (jsTrim "wanted.co.kr/wd/12345") "http" = false ∧
    formatUrl "wanted.co.kr/wd/12345" = "https://" ++ jsTrim "wanted.co.kr/wd/12345" ∧
    validateUrl "wanted.co.kr/wd/12345" =
      { valid := true, error := none, url := some "https://wanted.co.kr/wd/12345" } := by
  have h := C8_amended_scheme "wanted.co.kr/wd/12345" (by decide)
  exact ⟨by decide, h.1, h.2⟩

/-- Claim C9: every exception escaping the try block produces a 500
response, and whenever the thrown value is not an Error with a
Korean-containing message the response's error string is the fixed
generic localized message, so internals never leak. -/
theorem C9_generic_on_throw (env : Env) (req : Request) (w : World) (e : ThrownError)
    (hthrow : (analyzeJobBody env req w).result = Except.error e)
    (hnk : ¬ (e.isError = true ∧ containsKorean e.message = true)) :
    (analyzeJob env req w).response.status = 500 ∧
    (analyzeJob env req w).response.success = false ∧
    (analyzeJob env req w).response.error = some fallbackServerError := by
  unfold analyzeJob
  simp only [hthrow]
  simp [catchResponse, hnk]

/-- Witness for C9 on a run whose request body fails to parse, so the
handler throws a SyntaxError with an English message. -/
theorem C9_witness :
    (analyzeJobBody envW reqBodyBroken wOneCredit).result =
      Except.error { isError := true, message := "Unexpected token u in JSON at position 0" } ∧
    (analyzeJob envW reqBodyBroken wOneCredit).response.status = 500 ∧
    (analyzeJob envW reqBodyBroken wOneCredit).response.success = false ∧
    (analyzeJob envW reqBodyBroken wOneCredit).response.error = some fallbackServerError := by
  have h := C9_generic_on_throw envW reqBodyBroken wOneCredit
    { isError := true, message := "Unexpected token u in JSON at position 0" }
    rfl (by decide)
  exact ⟨rfl, h.1, h.2.1, h.2.2⟩

/-- validateUrl_not_allowed: an input whose parsed hostname fails the
allowlist check is rejected with one of the validator's nonempty error
strings, whichever earlier check fires. -/
theorem validateUrl_not_allowed (s : String)
    (hhost : ∀ u, urlParse (formatUrl s) = some u →
      domainAllowed (strToLower u.hostname) = false) :
    (validateUrl s).valid = false ∧ ∃ e, (validateUrl s).error = some e ∧ e ≠ "" := by
  unfold validateUrl
  rcases hp : urlParse (formatUrl s) with _ | u
  · simp only [hp]
    exact ⟨by simp, errUrlBadFormat, by simp, by decide⟩
  · have hna := hhost u hp
    simp only [hp]
    by_cases hproto : u.protocol = "https:" ∨ u.protocol = "http:"
    · rw [if_neg (not_not_intro hproto)]
      by_cases hlocal : strToLower u.hostname ∈ ["localhost", "127.0.0.1", "0.0.0.0", "::1"]
      · rw [if_pos hlocal]
        exact ⟨by simp, errUrlInvalid, by simp, by decide⟩
      · rw [if_neg hlocal]
        by_cases hpriv : isPrivateHost (strToLower u.hostname) = true
        · rw [if_pos hpriv]
          exact ⟨by simp, errUrlInvalid, by simp, by decide⟩
        · rw [if_neg hpriv, if_pos (by simp [hna])]
          exact ⟨by simp, errUrlNotAllowed, by simp, by decide⟩
    · rw [if_pos hproto]
      exact ⟨by simp, errUrlScheme, by simp, by decide⟩

/-- analyzeJob_db_eq: the catch does not change the row state. -/
theorem analyzeJob_db_eq (env : Env) (req : Request) (w : World) :
    (analyzeJob env req w).db = (analyzeJobBody env req w).db := by
  unfold analyzeJob
  rcases h : (analyzeJobBody env req w).result <;> simp [h]

/-- analyzeJob_effects_eq: the catch does not change the effects. -/
theorem analyzeJob_effects_eq (env : Env) (req : Request) (w : World) :
    (analyzeJob env req w).effects = (analyzeJobBody env req w).effects := by
  unfold analyzeJob
  rcases h : (analyzeJobBody env req w).result <;> simp [h]

/-- Claim C1: for every input URL whose hostname is neither an
allowlisted job-board domain nor a dot-separated subdomain of one
(covering loopback, private-IP and lookalike hostnames), the validator
returns invalid with a nonempty error string, and a request carrying
that URL gets an unsuccessful response with no outbound fetch
performed. -/
theorem C1_nonallowlisted_rejected_no_fetch
    (s : String) (env : Env) (req : Request) (w : World) (bodyJson : Json)
    (hhost : ∀ u, urlParse (formatUrl s) = some u →
      domainAllowed (strToLower u.hostname) = false)
    (hbody : req.body = Except.ok bodyJson)
    (hurl : requestSchemaSafeParse bodyJson = some s) :
    (validateUrl s).valid = false ∧
    (∃ e, (validateUrl s).error = some e ∧ e ≠ "") ∧
    (analyzeJob env req w).response.success = false ∧
    (∀ eff ∈ (analyzeJob env req w).effects, isFetchEffect eff = false) := by
  obtain ⟨hv, he⟩ := validateUrl_not_allowed s hhost
  refine ⟨hv, he, ?_⟩
  unfold analyzeJob analyzeJobBody
  rcases hah : req.authHeader with _ | ah
  · simp [resp401Login]
  rcases hau : w.authUser with _ | uid
  · simp [resp401Expired]
  rcases hsub : w.subRead with _ | sub
  · simp [resp404Subscription]
  dsimp only
  by_cases hcred : sub.ai_credits_remaining < 1
  · simp [hcred, resp402Credits]
  rw [if_neg hcred]
  by_cases hrace : w.creditError = true ∨ jsStrictEqNat creditUpdateCount 0 = true
  · rw [if_pos hrace]
    simp [resp409Conflict, isFetchEffect]
  · rw [if_neg hrace]
    simp only [hbody, hurl, hv]
    simp [isFetchEffect]

/-- Witness for C1 on the lookalike hostname notlinkedin.com, which
must not match the allowlist entry linkedin.com. -/
theorem C1_witness :
    (validateUrl "notlinkedin.com/jobs/1").valid = false ∧
    (∃ e, (validateUrl "notlinkedin.com/jobs/1").error = some e ∧ e ≠ "") ∧
    (analyzeJob envW reqLookalike wOneCredit).response.success = false ∧
    (∀ eff ∈ (analyzeJob envW reqLookalike wOneCredit).effects, isFetchEffect eff = false) := by
  refine C1_nonallowlisted_rejected_no_fetch "notlinkedin.com/jobs/1" envW reqLookalike
    wOneCredit (Json.obj [("url", Json.str "notlinkedin.com/jobs/1")]) ?_ rfl rfl
  intro u hu
  have h0 : urlParse (formatUrl "notlinkedin.com/jobs/1") =
      some { protocol := "https:", hostname := "notlinkedin.com" } := rfl
  rw [h0] at hu
  injection hu with h
  subst h
  decide

/-- Claim C2 names a real bug in the code: the source calls update()
with no count option, so the supabase client's returned count is null
and the race check updatedCount === 0 compares null with 0 and never
holds.  At the failing input — the second of two requests that both
observed one remaining credit, its conditional update running after
the first request's deduction — the claimed 409 conflict response is
not returned: the contended request proceeds uncharged through the
scrape and the AI call (here ending in the no-content response), even
though, as the claim also states, no second deduction takes effect.
The code's own comments (optimistic concurrency control, credit
deduction failed (race condition)) and its dedicated 409 response
document the intended race handling that the missing count option
leaves unreachable. -/
theorem C2_race_bug_no_conflict :
    wContendedRacer.subRead = some { ai_credits_remaining := 1, ai_credits_used := 0 } ∧
    wContendedRacer.dbAtUpdate = some { ai_credits_remaining := 0, ai_credits_used := 1 } ∧
    (analyzeJob envW reqWanted wContendedRacer).response.status ≠ 409 ∧
    (analyzeJob envW reqWanted wContendedRacer).response.status = 400 ∧
    (analyzeJob envW reqWanted wContendedRacer).response.noContent = true ∧
    Effect.firecrawlFetch "https://wanted.co.kr/wd/12345" ["markdown"] true ∈
      (analyzeJob envW reqWanted wContendedRacer).effects ∧
    Effect.aiCall ∈ (analyzeJob envW reqWanted wContendedRacer).effects ∧
    (analyzeJob envW reqWanted wContendedRacer).db = wContendedRacer.dbAtUpdate := by
  refine ⟨rfl, rfl, by decide, by decide, by decide, by decide, by decide, by decide⟩

/-- Counterexample to claim C3 as stated: a request with one remaining
credit and a rejected (lookalike) URL fails — its extraction attempt
never succeeds — yet the balance has been decremented from 1 to 0,
because the deduction runs before input validation. -/
theorem C3_counterexample :
    wOneCredit.dbAtUpdate = some { ai_credits_remaining := 1, ai_credits_used := 0 } ∧
    (analyzeJob envW reqLookalike wOneCredit).response.success = false ∧
    (analyzeJob envW reqLookalike wOneCredit).response.status = 400 ∧
    (analyzeJob envW reqLookalike wOneCredit).db =
      some { ai_credits_remaining := 0, ai_credits_used := 1 } := by
  refine ⟨rfl, by decide, by decide, by decide⟩

/-- Claim C3 as amended: a zero-credit request fails fast with the
payment-required response, unchanged balance and no effects at all;
otherwise a request whose conditional update succeeds is charged
exactly once — the deduction happens before validation and extraction,
so it stands even when the extraction attempt later fails. -/
theorem C3_credit_guard_amended
    (env : Env) (req : Request) (w : World) (ah uid : String) (sub d : Subscription)
    (hah : req.authHeader = some ah)
    (hau : w.authUser = some uid)
    (hsub : w.subRead = some sub) :
    (sub.ai_credits_remaining < 1 →
      (analyzeJob env req w).response = resp402Credits ∧
      (analyzeJob env req w).db = w.dbAtUpdate ∧
      (analyzeJob env req w).effects = []) ∧
    (¬ sub.ai_credits_remaining < 1 → w.creditError = false → w.dbAtUpdate = some d →
      d.ai_credits_remaining = sub.ai_credits_remaining →
      (analyzeJob env req w).db =
        some { ai_credits_remaining := sub.ai_credits_remaining - 1,
               ai_credits_used := sub.ai_credits_used + 1 } ∧
      (analyzeJob env req w).effects.countP isCreditUpdateEffect = 1) := by
  constructor
  · intro hzero
    unfold analyzeJob analyzeJobBody
    simp only [hah, hau, hsub]
    rw [if_pos hzero]
    simp
  · intro hcred hce hdb hmatch
    rw [analyzeJob_db_eq, analyzeJob_effects_eq]
    exact analyzeJobBody_ledger env req w ah uid sub d hah hau hsub hcred hce hdb hmatch

/-- Witness for the amended C3: a zero-credit run fails fast with no
effects, and a one-credit run with a rejected URL is still charged
exactly once. -/
theorem C3_witness :
    (analyzeJob envW reqWanted wZeroCredit).response = resp402Credits ∧
    (analyzeJob envW reqWanted wZeroCredit).effects = [] ∧
    (analyzeJob envW reqLookalike wOneCredit).db =
      some { ai_credits_remaining := 0, ai_credits_used := 1 } ∧
    (analyzeJob envW reqLookalike wOneCredit).effects.countP isCreditUpdateEffect = 1 := by
  have h1 := (C3_credit_guard_amended envW reqWanted wZeroCredit "Bearer token" "user-1"
    ⟨0, 2⟩ ⟨0, 2⟩ rfl rfl rfl).1 (by decide)
  have h2 := (C3_credit_guard_amended envW reqLookalike wOneCredit "Bearer token" "user-1"
    ⟨1, 0⟩ ⟨1, 0⟩ rfl rfl rfl).2 (by decide) rfl rfl rfl
  exact ⟨h1.1, h1.2.2, h2.1, h2.2⟩

/-- Claim C4: for a valid allowlisted non-LinkedIn URL, when the
scraping API's response is unsuccessful and its error message contains
"not currently supported", the run returns the unsupported-site
response (success false, unsupportedSite true) and never calls the AI
model. -/
theorem C4_unsupported_site_no_ai
    (env : Env) (req : Request) (w : World)
    (ah uid fk gk : String) (sub d : Subscription) (bodyJson : Json) (url f m : String)
    (fr : FirecrawlResp)
    (hah : req.authHeader = some ah)
    (hau : w.authUser = some uid)
    (hsub : w.subRead = some sub)
    (hcred : ¬ sub.ai_credits_remaining < 1)
    (hce : w.creditError = false)
    (hdb : w.dbAtUpdate = some d)
    (hmatch : d.ai_credits_remaining = sub.ai_credits_remaining)
    (hbody : req.body = Except.ok bodyJson)
    (hurl : requestSchemaSafeParse bodyJson = some url)
    (hvalid : validateUrl url = { valid := true, error := none, url := some f })
    (hfk : env.firecrawlKey = some fk)
    (hgk : env.geminiKey = some gk)
    (hli : containsSubstr f "linkedin.com" = false)
    (hfc : w.firecrawl = Except.ok fr)
    (hfail : fr.ok = false ∨ fr.success = false)
    (herr : fr.error = some m)
    (hm : containsSubstr m "not currently supported" = true) :
    (analyzeJob env req w).response = respUnsupportedSite ∧
    Effect.aiCall ∉ (analyzeJob env req w).effects := by
  have hreach := analyzeJobBody_reach env req w ah uid fk gk sub d bodyJson url f
    hah hau hsub hcred hce hdb hmatch hbody hurl hvalid hfk hgk
  have hfs : fetchStage w f =
      ([Effect.firecrawlFetch f ["markdown"] true], Except.ok (Sum.inl respUnsupportedSite)) := by
    unfold fetchStage
    simp [directContent0, hli, hfc, hfail, herr, hm]
  have hpipe : fetchAiPipeline w url f =
      ([Effect.firecrawlFetch f ["markdown"] true], Except.ok respUnsupportedSite) := by
    unfold fetchAiPipeline
    rw [hfs]
  constructor
  · unfold analyzeJob
    rw [hreach, hpipe]
  · rw [analyzeJob_effects_eq, hreach]
    rw [hpipe]
    simp

/-- Witness for C4 on a wanted.co.kr request whose scrape reports the
unsupported-site error. -/
theorem C4_witness :
    (analyzeJob envW reqWanted wUnsupported).response = respUnsupportedSite ∧
    Effect.aiCall ∉ (analyzeJob envW reqWanted wUnsupported).effects := by
  exact C4_unsupported_site_no_ai envW reqWanted wUnsupported
    "Bearer token" "user-1" "firecrawl-key" "gemini-key" ⟨3, 0⟩ ⟨3, 0⟩
    (Json.obj [("url", Json.str "wanted.co.kr/wd/12345")]) "wanted.co.kr/wd/12345"
    "https://wanted.co.kr/wd/12345" "This website is not currently supported"
    firecrawlUnsupported
    rfl rfl rfl (by decide) rfl rfl rfl rfl rfl (by decide) rfl rfl (by decide) rfl
    (Or.inr rfl) rfl (by decide)

/-- Claim C5: when the normalized AI response carries no tool call, or
its tool-call arguments fail JSON parsing, the run returns the
no-content response (success false, noContent true) and returns no
job-posting record. -/
theorem C5_no_toolcall_no_content
    (env : Env) (req : Request) (w : World)
    (ah uid fk gk : String) (sub d : Subscription) (bodyJson raw : Json)
    (url f content : String) (a : AiResp)
    (hah : req.authHeader = some ah)
    (hau : w.authUser = some uid)
    (hsub : w.subRead = some sub)
    (hcred : ¬ sub.ai_credits_remaining < 1)
    (hce : w.creditError = false)
    (hdb : w.dbAtUpdate = some d)
    (hmatch : d.ai_credits_remaining = sub.ai_credits_remaining)
    (hbody : req.body = Except.ok bodyJson)
    (hurl : requestSchemaSafeParse bodyJson = some url)
    (hvalid : validateUrl url = { valid := true, error := none, url := some f })
    (hfk : env.firecrawlKey = some fk)
    (hgk : env.geminiKey = some gk)
    (hfetch : (fetchStage w f).2 = Except.ok (Sum.inr content))
    (hai : w.aiResponse = Except.ok a)
    (haok : a.ok = true)
    (hbodyAi : a.body = Except.ok raw)
    (hno : toolCallOf (normalizeGeminiToLovable raw) = none ∨
      ∀ tc, toolCallOf (normalizeGeminiToLovable raw) = some tc →
        jsonParse tc.function.arguments = none) :
    (analyzeJob env req w).response = respNoContent ∧
    (analyzeJob env req w).response.data = none := by
  have hreach := analyzeJobBody_reach env req w ah uid fk gk sub d bodyJson url f
    hah hau hsub hcred hce hdb hmatch hbody hurl hvalid hfk hgk
  have hjd : extractedJobData (toolCallOf (normalizeGeminiToLovable raw)) = none := by
    rcases hno with h | h
    · rw [h]
      rfl
    · rcases htc : toolCallOf (normalizeGeminiToLovable raw) with _ | tc
      · rfl
      · unfold extractedJobData
        dsimp only
        by_cases hne : tc.function.arguments ≠ ""
        · rw [if_pos hne, h tc htc]
        · rw [if_neg hne]
  have hstage : aiStage w url = ([Effect.aiCall], Except.ok respNoContent) := by
    unfold aiStage
    rw [hai]
    simp [haok, hbodyAi, hjd]
  have hpipe : fetchAiPipeline w url f =
      ((fetchStage w f).1 ++ [Effect.aiCall], Except.ok respNoContent) := by
    unfold fetchAiPipeline
    simp only [hfetch, hstage]
  constructor
  · unfold analyzeJob
    rw [hreach, hpipe]
  · unfold analyzeJob
    rw [hreach, hpipe]
    rfl

/-- Witness for C5 on a run whose AI response is non-JSON text with no
function call. -/
theorem C5_witness :
    (analyzeJob envW reqWanted wBase).response = respNoContent ∧
    (analyzeJob envW reqWanted wBase).response.data = none := by
  exact C5_no_toolcall_no_content envW reqWanted wBase
    "Bearer token" "user-1" "firecrawl-key" "gemini-key" ⟨3, 0⟩ ⟨3, 0⟩
    (Json.obj [("url", Json.str "wanted.co.kr/wd/12345")]) geminiTextOnly
    "wanted.co.kr/wd/12345" "https://wanted.co.kr/wd/12345" longMarkdown aiOkTextOnly
    rfl rfl rfl (by decide) rfl rfl rfl rfl rfl (by decide) rfl rfl rfl rfl rfl rfl
    (Or.inl rfl)

/-- fetchStage_effects_prefix: the pipeline's effects extend the fetch
stage's effects. -/
theorem fetchStage_effects_prefix (w : World) (url f : String) :
    ∃ rest, (fetchAiPipeline w url f).1 = (fetchStage w f).1 ++ rest := by
  unfold fetchAiPipeline
  rcases h2 : (fetchStage w f).2 with err | sv
  · exact ⟨[], by simp [h2]⟩
  · rcases sv with resp | content
    · exact ⟨[], by simp [h2]⟩
    · exact ⟨[Effect.aiCall], by simp [h2, aiStage_effects_eq]⟩

/-- Claim C6: whenever the first-tier content is empty or under 100
characters the run calls the scraping API requesting markdown of the
main content, and when the content after both tiers is empty or under
50 characters the run returns the could-not-retrieve-content error
without calling the AI model. -/
theorem C6_fallback_and_length
    (env : Env) (req : Request) (w : World)
    (ah uid fk gk : String) (sub d : Subscription) (bodyJson : Json) (url f : String)
    (hah : req.authHeader = some ah)
    (hau : w.authUser = some uid)
    (hsub : w.subRead = some sub)
    (hcred : ¬ sub.ai_credits_remaining < 1)
    (hce : w.creditError = false)
    (hdb : w.dbAtUpdate = some d)
    (hmatch : d.ai_credits_remaining = sub.ai_credits_remaining)
    (hbody : req.body = Except.ok bodyJson)
    (hurl : requestSchemaSafeParse bodyJson = some url)
    (hvalid : validateUrl url = { valid := true, error := none, url := some f })
    (hfk : env.firecrawlKey = some fk)
    (hgk : env.geminiKey = some gk)
    (hshort : directContent0 w f = "" ∨ (directContent0 w f).length < 100) :
    Effect.firecrawlFetch f ["markdown"] true ∈ (analyzeJob env req w).effects ∧
    (∀ fr, w.firecrawl = Except.ok fr → fr.ok = true → fr.success = true →
      (fr.markdown.getD "" = "" ∨ (fr.markdown.getD "").length < 50) →
      (analyzeJob env req w).response = respContentTooShort ∧
      Effect.aiCall ∉ (analyzeJob env req w).effects) := by
  have hreach := analyzeJobBody_reach env req w ah uid fk gk sub d bodyJson url f
    hah hau hsub hcred hce hdb hmatch hbody hurl hvalid hfk hgk
  constructor
  · rw [analyzeJob_effects_eq, hreach]
    obtain ⟨rest, hrest⟩ := fetchStage_effects_prefix w url f
    have hm : Effect.firecrawlFetch f ["markdown"] true ∈ (fetchStage w f).1 := by
      rw [fetchStage_effects_eq, if_pos hshort]
      simp
    simp only [hrest]
    simp [hm]
  · intro fr hfc hok hsucc hlen
    have hfs : fetchStage w f =
        ((if containsSubstr f "linkedin.com" then [Effect.directFetch f] else []) ++
          [Effect.firecrawlFetch f ["markdown"] true],
         Except.ok (Sum.inl respContentTooShort)) := by
      unfold fetchStage
      simp [directContent0, hshort, hfc, hok, hsucc, hlen]
      split_ifs <;> simp_all [directContent0]
    have hpipe : fetchAiPipeline w url f = ((fetchStage w f).1, Except.ok respContentTooShort) := by
      unfold fetchAiPipeline
      rw [hfs]
    constructor
    · unfold analyzeJob
      rw [hreach, hpipe]
    · rw [analyzeJob_effects_eq, hreach, hpipe, fetchStage_effects_eq, if_pos hshort]
      split_ifs <;> simp

/-- Witness for C6 on a wanted.co.kr request whose scrape returns
4-character content. -/
theorem C6_witness :
    Effect.firecrawlFetch "https://wanted.co.kr/wd/12345" ["markdown"] true ∈
      (analyzeJob envW reqWanted wShortContent).effects ∧
    (analyzeJob envW reqWanted wShortContent).response = respContentTooShort ∧
    Effect.aiCall ∉ (analyzeJob envW reqWanted wShortContent).effects := by
  have h := C6_fallback_and_length envW reqWanted wShortContent
    "Bearer token" "user-1" "firecrawl-key" "gemini-key" ⟨3, 0⟩ ⟨3, 0⟩
    (Json.obj [("url", Json.str "wanted.co.kr/wd/12345")]) "wanted.co.kr/wd/12345"
    "https://wanted.co.kr/wd/12345"
    rfl rfl rfl (by decide) rfl rfl rfl rfl rfl (by decide) rfl rfl (Or.inl rfl)
  have h2 := h.2 firecrawlShort rfl rfl rfl (Or.inr (by decide))
  exact ⟨h.1, h2.1, h2.2⟩
